import Mathlib

/-!
Shallow embedding of the data-consistency and encoding pipeline of
src/new_hgt_model.py (GNN-FraudDetectionSystem).

Tables (pandas DataFrames) are modelled as a list of column names plus a
list of rows, every cell a string: the identifier columns are coerced to
string by the script itself (astype(str)) and preprocess coerces every
remaining column to string before encoding, so the string-cell view is the
one the encoding pipeline actually operates on.

The sklearn LabelEncoder is modelled by its documented behaviour: fit stores
the sorted distinct values (numpy.unique), and transform maps a value to
its position in that sorted list, failing (ValueError: y contains
previously unseen labels) on a value that was never fitted.  Python string
comparison is lexicographic on code points, which is exactly the order on
List Char, so sorting is done on String.data.
-/

namespace GNNFraud

/-- Python str.strip(): remove leading and trailing whitespace.  Defined on
the underlying character list (String.trim itself does not reduce in the
kernel). -/
def pyStrip (s : String) : String :=
  ⟨((s.data.dropWhile Char.isWhitespace).reverse.dropWhile Char.isWhitespace).reverse⟩

/-- The comparison used by numpy.unique on Python strings: lexicographic
order on the character sequence. -/
def strLe (a b : String) : Prop := a.data ≤ b.data

instance : DecidableRel strLe := fun a b => inferInstanceAs (Decidable (a.data ≤ b.data))

instance : IsTotal String strLe := ⟨fun a b => le_total a.data b.data⟩

instance : IsTrans String strLe := ⟨fun _ _ _ h h2 => le_trans h h2⟩

/-- LabelEncoder.fit: the classes attribute, i.e. the distinct input values
in sorted order (numpy.unique). -/
def classesOf (xs : List String) : List String :=
  List.insertionSort strLe xs.dedup

/-- LabelEncoder.transform on a single value: its position among the fitted
classes, or none (ValueError: y contains previously unseen labels) when the
value was never fitted. -/
def transform (classes : List String) (x : String) : Option Nat :=
  if x ∈ classes then some (List.indexOf x classes) else none

/-- LabelEncoder.transform on a whole column: fails if any entry fails. -/
def transformAll (classes : List String) : List String → Option (List Nat)
  | [] => some []
  | x :: xs =>
    match transform classes x, transformAll classes xs with
    | some k, some ks => some (k :: ks)
    | _, _ => none

/-- LabelEncoder.fit_transform on one column: every value is mapped to its
position among the sorted distinct values of that same column (always
succeeds, since the column is fitted on itself). -/
def fit_transform (xs : List String) : List Nat :=
  xs.map (fun x => List.indexOf x (classesOf xs))

/-- A pandas DataFrame, restricted to what the script uses: named columns
and string cells.  Rows are lists of cells aligned with the column list. -/
structure DataFrame where
  cols : List String
  rows : List (List String)
deriving DecidableEq, Repr

/-- Cell i of a row (out-of-range reads give the empty string). -/
def cellv (r : List String) (i : Nat) : String := r.getD i ""

/-- Position of a column label (first occurrence, as pandas resolves a
non-duplicated label). -/
def colPos (df : DataFrame) (c : String) : Nat := List.indexOf c df.cols

/-- The values of column c, in row order (pandas df[c]). -/
def colVals (df : DataFrame) (c : String) : List String :=
  df.rows.map (fun r => cellv r (colPos df c))

/-- pandas df[c] as a fallible lookup: none models the KeyError raised when
the label is absent. -/
def getCol (df : DataFrame) (c : String) : Option (List String) :=
  if c ∈ df.cols then some (colVals df c) else none

/-- Replace the entry at one position of a row, leaving everything else
unchanged. -/
def mapAt (f : String → String) : Nat → List String → List String
  | _, [] => []
  | 0, v :: vs => f v :: vs
  | n + 1, v :: vs => v :: mapAt f n vs

/-- pandas df[c] = df[c].map f: rewrite one column in place. -/
def mapCol (df : DataFrame) (c : String) (f : String → String) : DataFrame :=
  { df with rows := df.rows.map (mapAt f (colPos df c)) }

/-- pandas df[c] = series: append a fresh column on the right. -/
def addCol (df : DataFrame) (c : String) (vals : List String) : DataFrame :=
  { cols := df.cols ++ [c], rows := List.zipWith (fun r v => r ++ [v]) df.rows vals }

/-- pandas df.drop(columns=cs): keep only the positions whose label is not
listed, preserving row order. -/
def dropCols (df : DataFrame) (cs : List String) : DataFrame :=
  let keep := (List.range df.cols.length).filter (fun i => !(cs.contains (df.cols.getD i "")))
  { cols := keep.map (fun i => df.cols.getD i ""),
    rows := df.rows.map (fun r => keep.map (fun i => cellv r i)) }

/-- The values of the column at position i, in row order. -/
def colValsAt (df : DataFrame) (i : Nat) : List String :=
  df.rows.map (fun r => cellv r i)

/-- One cell of the categorical-encoding loop of encode_data: a cell of an
excluded column is left alone, any other cell is replaced by the
fit_transform code of its value, computed from that column alone.  (In the
script the exclusion is by name plus the dtype == object test; the integer
columns just produced by the identifier index, user_idx / source_idx /
target_idx, fail the dtype test and are therefore listed as excluded
here.) -/
def encodedCell (df : DataFrame) (excluded : List String) (i : Nat) (v : String) : String :=
  if df.cols.getD i "" ∈ excluded then v
  else Nat.repr (List.indexOf v (classesOf (colValsAt df i)))

/-- The per-column LabelEncoder loop of encode_data (lines 72-83): each
non-excluded column is fit and transformed independently, from its own
values only.  The loop iterates over distinct column names, so the
sequential column updates are independent and are modelled positionally. -/
def encodeAllCols (df : DataFrame) (excluded : List String) : DataFrame :=
  { df with rows := df.rows.map (fun r =>
      (List.range df.cols.length).map (fun i => encodedCell df excluded i (cellv r i))) }

/-- The encoders dictionary built by the loop: column name paired with the
fitted classes of that column. -/
def fittedEncoders (df : DataFrame) (excluded : List String) : List (String × List String) :=
  (List.range df.cols.length).filterMap (fun i =>
    if df.cols.getD i "" ∈ excluded then none
    else some (df.cols.getD i "", classesOf (colValsAt df i)))

/-- The Python exceptions the script can raise. -/
inductive PyError where
  | keyError (msg : String)
  | valueError (msg : String)
deriving DecidableEq, Repr

/-- Line 23: nodes[user_id] = nodes[user_id].astype(str).str.strip(). -/
def normNodes (nodes : DataFrame) : DataFrame := mapCol nodes "user_id" pyStrip

/-- Lines 24-25: the same normalization on both edge endpoint columns. -/
def normEdges (edges : DataFrame) : DataFrame :=
  mapCol (mapCol edges "source_id" pyStrip) "target_id" pyStrip

/-- The filter predicate of line 38: both endpoint cells of the row are
members of node_ids. -/
def validEdgeRow (node_ids : List String) (srcPos tgtPos : Nat) (r : List String) : Bool :=
  node_ids.contains (cellv r srcPos) && node_ids.contains (cellv r tgtPos)

/-- Line 38: edges[edges.source_id.isin(node_ids) and edges.target_id.isin(node_ids)]. -/
def filterValid (node_ids : List String) (edges1 : DataFrame) : DataFrame :=
  { edges1 with
    rows := edges1.rows.filter
      (validEdgeRow node_ids (colPos edges1 "source_id") (colPos edges1 "target_id")) }

/-- load_data (lines 18-43): normalize the three identifier columns with
astype(str).str.strip(), compute node_ids = set(nodes[user_id]), keep only
the edges whose two endpoints are members of node_ids, and report the
number of dropped edges (the count printed at line 41, returned here as the
third component).  Reading a missing identifier column raises a pandas
KeyError. -/
def load_data (nodes edges : DataFrame) : Except PyError (DataFrame × DataFrame × Nat) :=
  if "user_id" ∈ nodes.cols then
    if "source_id" ∈ edges.cols then
      if "target_id" ∈ edges.cols then
        let nodes1 := normNodes nodes
        let edges1 := normEdges edges
        let node_ids := colVals nodes1 "user_id"
        let valid := filterValid node_ids edges1
        Except.ok (nodes1, valid, edges1.rows.length - valid.rows.length)
      else Except.error (PyError.keyError "target_id")
    else Except.error (PyError.keyError "source_id")
  else Except.error (PyError.keyError "user_id")

/-- preprocess (lines 45-50): astype(str) on every column.  Every cell of
the model is already the string pandas would render, so the coercion is the
identity on this representation. -/
def preprocess (nodes edges : DataFrame) : DataFrame × DataFrame := (nodes, edges)

/-- encode_data (lines 52-85): fit the identifier index on nodes[user_id],
transform the node identifiers and both edge endpoint columns through it
(ValueError on any unseen value), then run the independent per-column
LabelEncoder loop on every remaining categorical column. -/
def encode_data (nodes edges : DataFrame) :
    Except PyError (DataFrame × DataFrame × List (String × List String)) :=
  if "user_id" ∈ nodes.cols then
    if "source_id" ∈ edges.cols then
      if "target_id" ∈ edges.cols then
        let user_ids := colVals nodes "user_id"
        let classes := classesOf user_ids
        match transformAll classes user_ids,
              transformAll classes (colVals edges "source_id"),
              transformAll classes (colVals edges "target_id") with
        | some nIdx, some sIdx, some tIdx =>
          let nodes1 := addCol nodes "user_idx" (nIdx.map Nat.repr)
          let edges1 := addCol (addCol edges "source_idx" (sIdx.map Nat.repr))
                          "target_idx" (tIdx.map Nat.repr)
          let nodes2 := encodeAllCols nodes1 ["user_id", "user_idx"]
          let edges2 := encodeAllCols edges1 ["source_id", "target_id", "source_idx", "target_idx"]
          Except.ok (nodes2, edges2,
            fittedEncoders nodes1 ["user_id", "user_idx"] ++
            fittedEncoders edges1 ["source_id", "target_id", "source_idx", "target_idx"])
        | _, _, _ => Except.error (PyError.valueError "y contains previously unseen labels")
      else Except.error (PyError.keyError "target_id")
    else Except.error (PyError.keyError "source_id")
  else Except.error (PyError.keyError "user_id")

/-- The torch_geometric Data object main assembles (lines 144-148): feature
matrix, connectivity pairs, optional target vector. -/
structure GData where
  x : List (List String)
  edge_index : List String × List String
  y : Option (List String)
deriving DecidableEq, Repr

/-- train_model (lines 100-116): raise ValueError when data.y is None,
otherwise run the epoch loop, one optimizer step per epoch; the returned
number is how many optimizer steps were executed. -/
def train_model (data : GData) (epochs : Nat) : Except PyError Nat :=
  if data.y.isNone then
    Except.error (PyError.valueError "Target data (y) is missing from the dataset.")
  else Except.ok epochs

/-- Observable outcome of one run of main: an uncaught exception (process
crash), the caught-and-printed encoding error (graceful return at line
131, before any tensor is built and before training), or a completed run
with its number of optimizer steps. -/
inductive MainResult where
  | crashed (e : PyError)
  | encodingErrorCaught (msg : String)
  | completed (trainSteps : Nat)
deriving DecidableEq, Repr

/-- The body of main from line 125 on, operating on the tables returned by
load_data: preprocess, the try/except ValueError around encode_data (an
encoding ValueError is printed and main returns; any other exception
propagates), tensor assembly (feature matrix without the identifier
columns, edge_index from the two integer endpoint columns, y from the
reported_risk column or a KeyError), and training. -/
def mainAfterLoad (nodes1 edges1 : DataFrame) (epochs : Nat) : MainResult :=
  let p := preprocess nodes1 edges1
  match encode_data p.1 p.2 with
  | Except.error (PyError.valueError m) => MainResult.encodingErrorCaught m
  | Except.error e => MainResult.crashed e
  | Except.ok (n3, e3, _encs) =>
    let node_features := (dropCols n3 ["user_id", "user_idx"]).rows
    let edge_index := (colVals e3 "source_idx", colVals e3 "target_idx")
    match getCol n3 "reported_risk" with
    | none => MainResult.crashed (PyError.keyError "reported_risk")
    | some yvals =>
      let data : GData := { x := node_features, edge_index := edge_index, y := some yvals }
      match train_model data epochs with
      | Except.error e => MainResult.crashed e
      | Except.ok steps => MainResult.completed steps

/-- main (lines 118-159): load_data, then the rest of the pipeline; an
exception escaping load_data crashes the process. -/
def main (nodes0 edges0 : DataFrame) (epochs : Nat) : MainResult :=
  match load_data nodes0 edges0 with
  | Except.error e => MainResult.crashed e
  | Except.ok (n1, e1, _dropped) => mainAfterLoad n1 e1 epochs

/-! ### Concrete input scenarios used by the witnesses and counterexamples -/

/-- Two nodes (one with trailing whitespace in its identifier); two edges,
of which one references the unknown node C and must be dropped. -/
def s1nodes : DataFrame := ⟨["user_id"], [["A "], ["B"]]⟩

def s1edges : DataFrame := ⟨["source_id", "target_id"], [[" A", "B"], ["A", "C"]]⟩

def s1nodesOut : DataFrame := ⟨["user_id"], [["A"], ["B"]]⟩

def s1edgesOut : DataFrame := ⟨["source_id", "target_id"], [["A", "B"]]⟩

/-- A node table whose rows are NOT in sorted identifier order (B before
A), plus a self-edge on B: exhibits the row-order mismatch of claim C3. -/
def c3nodes : DataFrame := ⟨["user_id", "reported_risk"], [["B", "5"], ["A", "7"]]⟩

def c3edges : DataFrame := ⟨["source_id", "target_id"], [["B", "B"]]⟩

/-- What encode_data returns on the C3 scenario: user_idx/source_idx come
from the sorted identifier order, the rows keep their original order. -/
def c3nodesEnc : DataFrame :=
  ⟨["user_id", "reported_risk", "user_idx"], [["B", "0", "1"], ["A", "1", "0"]]⟩

def c3edgesEnc : DataFrame :=
  ⟨["source_id", "target_id", "source_idx", "target_idx"], [["B", "B", "1", "1"]]⟩

/-- A node table whose reported_risk column exists but is entirely empty
(every cell null/empty). -/
def c5nodes : DataFrame := ⟨["user_id", "reported_risk"], [["A", ""], ["B", ""]]⟩

def c5edges : DataFrame := ⟨["source_id", "target_id"], [["A", "B"]]⟩

/-- A node table with no reported_risk column at all. -/
def c5nodesMissing : DataFrame := ⟨["user_id"], [["A"]]⟩

/-- Tables as they would reach encode_data if reconciliation were skipped:
the edge references the unknown identifier Z. -/
def c6nodes : DataFrame := ⟨["user_id"], [["A"]]⟩

def c6edges : DataFrame := ⟨["source_id", "target_id"], [["A", "Z"]]⟩

/-- The spec scenario for C7: a single categorical column region with a
repeated value. -/
def regionDf : DataFrame := ⟨["region"], [["east"], ["west"], ["east"]]⟩

def regionCol : List String := ["east", "west", "east"]

/-- Two rows differ only by leading/trailing whitespace in the identifier
cells: the cells at the listed positions agree after stripping, every
other cell agrees exactly. -/
def TrimEqRow (ps : List Nat) (r s : List String) : Prop :=
  r.length = s.length ∧
  ∀ i < r.length,
    (i ∈ ps → pyStrip (cellv r i) = pyStrip (cellv s i)) ∧
    (i ∉ ps → cellv r i = cellv s i)

instance (ps : List Nat) (r s : List String) : Decidable (TrimEqRow ps r s) :=
  decidable_of_iff (r.length = s.length ∧
    ∀ i < r.length,
      (i ∈ ps → pyStrip (cellv r i) = pyStrip (cellv s i)) ∧
      (i ∉ ps → cellv r i = cellv s i)) Iff.rfl

/-- Two tables differ only by leading/trailing whitespace in the listed
identifier columns. -/
def TrimEqFrame (idCols : List String) (df df2 : DataFrame) : Prop :=
  df.cols = df2.cols ∧ df.rows.length = df2.rows.length ∧
  ∀ p ∈ df.rows.zip df2.rows, TrimEqRow (idCols.map (colPos df)) p.1 p.2

instance (idCols : List String) (df df2 : DataFrame) : Decidable (TrimEqFrame idCols df df2) :=
  decidable_of_iff (df.cols = df2.cols ∧ df.rows.length = df2.rows.length ∧
    ∀ p ∈ df.rows.zip df2.rows, TrimEqRow (idCols.map (colPos df)) p.1 p.2) Iff.rfl

/-- Identifier tables that differ only by surrounding whitespace. -/
def c8nodesA : DataFrame := ⟨["user_id"], [[" A"], ["B "]]⟩

def c8nodesB : DataFrame := ⟨["user_id"], [["A"], ["B"]]⟩

def c8edgesA : DataFrame := ⟨["source_id", "target_id"], [["A ", " B"]]⟩

def c8edgesB : DataFrame := ⟨["source_id", "target_id"], [["A", "B"]]⟩

/-! ### Basic facts about the LabelEncoder model -/

theorem mem_classesOf {x : String} {xs : List String} : x ∈ classesOf xs ↔ x ∈ xs :=
  (List.perm_insertionSort strLe xs.dedup).mem_iff.trans List.mem_dedup

theorem nodup_classesOf (xs : List String) : (classesOf xs).Nodup :=
  (List.perm_insertionSort strLe xs.dedup).nodup_iff.mpr (List.nodup_dedup xs)

theorem sorted_classesOf (xs : List String) : List.Sorted strLe (classesOf xs) :=
  List.sorted_insertionSort strLe xs.dedup

theorem classesOf_perm {xs : List String} (h : xs.Nodup) : (classesOf xs).Perm xs := by
  have : xs.dedup = xs := List.dedup_eq_self.mpr h
  simpa [classesOf, this] using List.perm_insertionSort strLe xs

theorem transform_eq_some {classes : List String} {x : String} (h : x ∈ classes) :
    transform classes x = some (List.indexOf x classes) := by
  simp [transform, h]

theorem transform_eq_none_iff {classes : List String} {x : String} :
    transform classes x = none ↔ x ∉ classes := by
  by_cases h : x ∈ classes <;> simp [transform, h]

theorem transformAll_eq_some {classes : List String} {ys : List String}
    (h : ∀ y ∈ ys, y ∈ classes) :
    transformAll classes ys = some (ys.map (fun y => List.indexOf y classes)) := by
  induction ys with
  | nil => rfl
  | cons y ys ih =>
    have hy : y ∈ classes := h y (List.mem_cons_self y ys)
    have hys : ∀ z ∈ ys, z ∈ classes := fun z hz => h z (List.mem_cons_of_mem y hz)
    simp [transformAll, transform_eq_some hy, ih hys]

/-- On a duplicate-free list, looking every element up by indexOf
enumerates all the positions. -/
theorem map_indexOf_self {l : List String} (h : l.Nodup) :
    l.map (fun x => List.indexOf x l) = List.range l.length := by
  apply List.ext_get
  · simp
  · intro n h1 h2
    simp only [List.get_map, List.get_range]
    have hmem : l.get ⟨n, by simpa using h1⟩ ∈ l := List.get_mem l _ _
    have hlt : List.indexOf (l.get ⟨n, by simpa using h1⟩) l < l.length :=
      List.indexOf_lt_length.mpr hmem
    have := List.indexOf_get (a := l.get ⟨n, by simpa using h1⟩) hlt
    have heq := (h.get_inj_iff (i := ⟨_, hlt⟩) (j := ⟨n, by simpa using h1⟩)).mp this
    simpa using congrArg Fin.val heq

/-- The fitted identifier index is strictly monotone on the fitted values:
classes are sorted, so a smaller string sits at a smaller position. -/
theorem indexOf_classesOf_lt {xs : List String} {a b : String}
    (ha : a ∈ xs) (hb : b ∈ xs) (hab : a.data < b.data) :
    List.indexOf a (classesOf xs) < List.indexOf b (classesOf xs) := by
  have hma : a ∈ classesOf xs := mem_classesOf.mpr ha
  have hmb : b ∈ classesOf xs := mem_classesOf.mpr hb
  have hia : List.indexOf a (classesOf xs) < (classesOf xs).length :=
    List.indexOf_lt_length.mpr hma
  have hib : List.indexOf b (classesOf xs) < (classesOf xs).length :=
    List.indexOf_lt_length.mpr hmb
  rcases lt_trichotomy (List.indexOf a (classesOf xs)) (List.indexOf b (classesOf xs))
    with h | h | h
  · exact h
  · exact absurd hab (by
      have : a = b := (List.indexOf_inj hma hmb).mp h
      simp [this])
  · exfalso
    have hle : strLe ((classesOf xs).get ⟨List.indexOf b (classesOf xs), hib⟩)
        ((classesOf xs).get ⟨List.indexOf a (classesOf xs), hia⟩) :=
      List.pairwise_iff_get.mp (sorted_classesOf xs) _ _ (Fin.mk_lt_mk.mpr h)
    rw [List.indexOf_get hia, List.indexOf_get hib] at hle
    exact absurd hab (not_lt.mpr hle)

/-! ### Facts about load_data -/

theorem load_data_eq {nodes edges : DataFrame}
    (hu : "user_id" ∈ nodes.cols) (hs : "source_id" ∈ edges.cols)
    (ht : "target_id" ∈ edges.cols) :
    load_data nodes edges = Except.ok (normNodes nodes,
      filterValid (colVals (normNodes nodes) "user_id") (normEdges edges),
      (normEdges edges).rows.length -
        (filterValid (colVals (normNodes nodes) "user_id") (normEdges edges)).rows.length) := by
  simp only [load_data, if_pos hu, if_pos hs, if_pos ht]

/-- Inversion for a successful load_data: the guards held and the three
results are the normalized node table, the filtered edge table and the
dropped-edge count. -/
theorem load_data_ok {nodes edges n1 e1 : DataFrame} {d : Nat}
    (h : load_data nodes edges = Except.ok (n1, e1, d)) :
    "user_id" ∈ nodes.cols ∧ "source_id" ∈ edges.cols ∧ "target_id" ∈ edges.cols ∧
    n1 = normNodes nodes ∧
    e1 = filterValid (colVals (normNodes nodes) "user_id") (normEdges edges) ∧
    d = (normEdges edges).rows.length - e1.rows.length := by
  by_cases hu : "user_id" ∈ nodes.cols
  · by_cases hs : "source_id" ∈ edges.cols
    · by_cases ht : "target_id" ∈ edges.cols
      · rw [load_data_eq hu hs ht, Except.ok.injEq, Prod.mk.injEq, Prod.mk.injEq] at h
        obtain ⟨h1, h2, h3⟩ := h
        exact ⟨hu, hs, ht, h1.symm, h2.symm, by rw [← h3, h2]⟩
      · simp [load_data, if_pos hu, if_pos hs, if_neg ht] at h
    · simp [load_data, if_pos hu, if_neg hs] at h
  · simp [load_data, if_neg hu] at h

theorem rows_filterValid (node_ids : List String) (edges1 : DataFrame) {r : List String} :
    r ∈ (filterValid node_ids edges1).rows ↔
      r ∈ edges1.rows ∧
      cellv r (colPos edges1 "source_id") ∈ node_ids ∧
      cellv r (colPos edges1 "target_id") ∈ node_ids := by
  simp [filterValid, List.mem_filter, validEdgeRow, List.contains, List.elem_iff]

theorem length_rows_normEdges (edges : DataFrame) :
    (normEdges edges).rows.length = edges.rows.length := by
  simp [normEdges, mapCol]

theorem length_rows_normNodes (nodes : DataFrame) :
    (normNodes nodes).rows.length = nodes.rows.length := by
  simp [normNodes, mapCol]

/-- C1: the filtered edge table returned by load_data holds exactly the
normalized edge rows whose two normalized endpoints belong to the node
identifier set, and the reported dropped-edge count is the number of
loaded edges minus the number of surviving edges. -/
theorem claim_C1 (nodes edges n1 e1 : DataFrame) (d : Nat)
    (h : load_data nodes edges = Except.ok (n1, e1, d)) :
    (∀ r, r ∈ e1.rows ↔
        r ∈ (normEdges edges).rows ∧
        cellv r (colPos edges "source_id") ∈ colVals n1 "user_id" ∧
        cellv r (colPos edges "target_id") ∈ colVals n1 "user_id")
    ∧ d = edges.rows.length - e1.rows.length := by
  obtain ⟨hu, hs, ht, hn, he, hd⟩ := load_data_ok h
  constructor
  · intro r
    rw [he, hn]
    exact rows_filterValid _ _
  · rw [hd, length_rows_normEdges]

/-- Witness for C1 on the s1 scenario: one of two edges survives, the
dropped count is 1. -/
theorem claim_C1_witness :
    load_data s1nodes s1edges = Except.ok (s1nodesOut, s1edgesOut, 1) ∧
    ((∀ r, r ∈ s1edgesOut.rows ↔
        r ∈ (normEdges s1edges).rows ∧
        cellv r (colPos s1edges "source_id") ∈ colVals s1nodesOut "user_id" ∧
        cellv r (colPos s1edges "target_id") ∈ colVals s1nodesOut "user_id")
      ∧ 1 = s1edges.rows.length - s1edgesOut.rows.length) :=
  ⟨rfl, claim_C1 s1nodes s1edges s1nodesOut s1edgesOut 1 rfl⟩

/-- C9: load_data returns the node table unchanged in row count; only the
edge table is filtered. -/
theorem claim_C9 (nodes edges n1 e1 : DataFrame) (d : Nat)
    (h : load_data nodes edges = Except.ok (n1, e1, d)) :
    n1.rows.length = nodes.rows.length := by
  obtain ⟨-, -, -, hn, -, -⟩ := load_data_ok h
  rw [hn, length_rows_normNodes]

/-- Witness for C9: on the s1 scenario (one of two edges dropped) the node
table still has its two rows. -/
theorem claim_C9_witness :
    load_data s1nodes s1edges = Except.ok (s1nodesOut, s1edgesOut, 1) ∧
    s1nodesOut.rows.length = s1nodes.rows.length :=
  ⟨rfl, claim_C9 s1nodes s1edges s1nodesOut s1edgesOut 1 rfl⟩

/-! ### C2 and C10: the identifier index -/

/-- C2: on a node table with pairwise-distinct identifiers, the fitted
identifier index is a bijection onto the dense range: transforming every
node identifier succeeds, the resulting integer list is a permutation of
0..num_nodes-1 (so its set is exactly that range), and no two distinct
identifiers share an integer. -/
theorem claim_C2 (ids : List String) (h : ids.Nodup) :
    transformAll (classesOf ids) ids =
      some (ids.map (fun x => List.indexOf x (classesOf ids)))
    ∧ (ids.map (fun x => List.indexOf x (classesOf ids))).Perm (List.range ids.length)
    ∧ ∀ a ∈ ids, ∀ b ∈ ids,
        List.indexOf a (classesOf ids) = List.indexOf b (classesOf ids) → a = b := by
  have hperm : (classesOf ids).Perm ids := classesOf_perm h
  refine ⟨transformAll_eq_some (fun y hy => mem_classesOf.mpr hy), ?_, ?_⟩
  · have h1 : (classesOf ids).map (fun x => List.indexOf x (classesOf ids)) =
        List.range (classesOf ids).length :=
      map_indexOf_self (nodup_classesOf ids)
    have h2 : (ids.map (fun x => List.indexOf x (classesOf ids))).Perm
        ((classesOf ids).map (fun x => List.indexOf x (classesOf ids))) :=
      (hperm.map _).symm
    rw [h1, hperm.length_eq] at h2
    exact h2
  · intro a ha b hb hab
    exact (List.indexOf_inj (mem_classesOf.mpr ha) (mem_classesOf.mpr hb)).mp hab

/-- Witness for C2 at the two-identifier table with rows in order B, A. -/
theorem claim_C2_witness :
    (["B", "A"] : List String).Nodup ∧
    (transformAll (classesOf ["B", "A"]) ["B", "A"] =
        some ((["B", "A"] : List String).map (fun x => List.indexOf x (classesOf ["B", "A"])))
      ∧ ((["B", "A"] : List String).map
          (fun x => List.indexOf x (classesOf ["B", "A"]))).Perm
          (List.range (["B", "A"] : List String).length)
      ∧ ∀ a ∈ (["B", "A"] : List String), ∀ b ∈ (["B", "A"] : List String),
          List.indexOf a (classesOf ["B", "A"]) = List.indexOf b (classesOf ["B", "A"]) →
          a = b) :=
  ⟨by decide, claim_C2 ["B", "A"] (by decide)⟩

/-- C10: the fitted identifier index is monotone with respect to the
lexicographic order on identifier strings: the classes are stored sorted,
so a lexicographically smaller identifier receives a smaller integer. -/
theorem claim_C10 (ids : List String) (a b : String) (hnd : ids.Nodup)
    (ha : a ∈ ids) (hb : b ∈ ids) (hab : a < b) :
    ∃ ka kb, transform (classesOf ids) a = some ka ∧
      transform (classesOf ids) b = some kb ∧ ka < kb := by
  refine ⟨_, _, transform_eq_some (mem_classesOf.mpr ha),
    transform_eq_some (mem_classesOf.mpr hb), ?_⟩
  exact indexOf_classesOf_lt ha hb (String.lt_iff_toList_lt.mp hab)

/-- Witness for C10: A precedes B lexicographically and receives the
smaller index. -/
theorem claim_C10_witness :
    ((["B", "A"] : List String).Nodup ∧ "A" ∈ (["B", "A"] : List String) ∧
      "B" ∈ (["B", "A"] : List String) ∧ ("A" : String) < "B") ∧
    ∃ ka kb, transform (classesOf ["B", "A"]) "A" = some ka ∧
      transform (classesOf ["B", "A"]) "B" = some kb ∧ ka < kb :=
  ⟨⟨by decide, by decide, by decide, String.lt_iff_toList_lt.mpr (by decide)⟩,
    claim_C10 ["B", "A"] "A" "B" (by decide) (by decide) (by decide)
      (String.lt_iff_toList_lt.mpr (by decide))⟩

/-! ### Facts about encode_data and main -/

theorem cols_normNodes (nodes : DataFrame) : (normNodes nodes).cols = nodes.cols := rfl

theorem cols_normEdges (edges : DataFrame) : (normEdges edges).cols = edges.cols := rfl

theorem cols_filterValid (nid : List String) (edges1 : DataFrame) :
    (filterValid nid edges1).cols = edges1.cols := rfl

theorem filterValid_colVals_src (nid : List String) (edges1 : DataFrame) :
    ∀ v ∈ colVals (filterValid nid edges1) "source_id", v ∈ nid := by
  intro v hv
  obtain ⟨r, hr, rfl⟩ := List.mem_map.mp hv
  exact ((rows_filterValid nid edges1).mp hr).2.1

theorem filterValid_colVals_tgt (nid : List String) (edges1 : DataFrame) :
    ∀ v ∈ colVals (filterValid nid edges1) "target_id", v ∈ nid := by
  intro v hv
  obtain ⟨r, hr, rfl⟩ := List.mem_map.mp hv
  exact ((rows_filterValid nid edges1).mp hr).2.2

/-- Whenever every edge endpoint value already belongs to the node
identifier column, encode_data cannot hit its unseen-label failure and
returns successfully; the encoded node table carries the original columns
plus user_idx. -/
theorem encode_data_ok {nodes edges : DataFrame}
    (hu : "user_id" ∈ nodes.cols) (hs : "source_id" ∈ edges.cols)
    (ht : "target_id" ∈ edges.cols)
    (hsrc : ∀ v ∈ colVals edges "source_id", v ∈ colVals nodes "user_id")
    (htgt : ∀ v ∈ colVals edges "target_id", v ∈ colVals nodes "user_id") :
    ∃ n3 e3 encs, encode_data nodes edges = Except.ok (n3, e3, encs) ∧
      n3.cols = nodes.cols ++ ["user_idx"] := by
  have h1 := @transformAll_eq_some (classesOf (colVals nodes "user_id"))
    (colVals nodes "user_id") (fun y hy => mem_classesOf.mpr hy)
  have h2 := @transformAll_eq_some (classesOf (colVals nodes "user_id"))
    (colVals edges "source_id") (fun y hy => mem_classesOf.mpr (hsrc y hy))
  have h3 := @transformAll_eq_some (classesOf (colVals nodes "user_id"))
    (colVals edges "target_id") (fun y hy => mem_classesOf.mpr (htgt y hy))
  simp only [encode_data, if_pos hu, if_pos hs, if_pos ht, h1, h2, h3]
  exact ⟨_, _, _, rfl, rfl⟩

/-- C4: the identifier transform fails exactly on values never fitted; and
after load_data has filtered the edges, the failure branch is unreachable:
encode_data succeeds on everything the full pipeline feeds it. -/
theorem claim_C4 :
    (∀ (ids : List String) (x : String),
        transform (classesOf ids) x = none ↔ x ∉ ids)
    ∧ ∀ nodes edges n1 e1 d,
        load_data nodes edges = Except.ok (n1, e1, d) →
        ∃ out, encode_data (preprocess n1 e1).1 (preprocess n1 e1).2 = Except.ok out := by
  constructor
  · intro ids x
    exact transform_eq_none_iff.trans (not_congr mem_classesOf)
  · intro nodes edges n1 e1 d h
    obtain ⟨hu, hs, ht, hn, he, -⟩ := load_data_ok h
    subst hn he
    obtain ⟨n3, e3, encs, henc, -⟩ := @encode_data_ok (normNodes nodes)
      (filterValid (colVals (normNodes nodes) "user_id") (normEdges edges))
      hu hs ht (filterValid_colVals_src _ _) (filterValid_colVals_tgt _ _)
    exact ⟨_, henc⟩

/-- Witness for C4: the unseen value Z fails to transform, while the
filtered s1 tables encode successfully. -/
theorem claim_C4_witness :
    ((transform (classesOf ["A"]) "Z" = none ↔ "Z" ∉ (["A"] : List String)) ∧
      transform (classesOf ["A"]) "Z" = none) ∧
    load_data s1nodes s1edges = Except.ok (s1nodesOut, s1edgesOut, 1) ∧
    ∃ out, encode_data (preprocess s1nodesOut s1edgesOut).1
        (preprocess s1nodesOut s1edgesOut).2 = Except.ok out :=
  ⟨⟨claim_C4.1 ["A"] "Z", by decide⟩, rfl,
    claim_C4.2 s1nodes s1edges s1nodesOut s1edgesOut 1 rfl⟩

/-! ### C5: target column missing vs empty -/

/-- Counterexample to C5 as stated: with a reported_risk column that exists
but is entirely empty, the run does NOT abort — the tensors are built
(the empty strings are label-encoded to integers, giving a y tensor that
is not None) and all 10 optimizer steps execute. -/
theorem claim_C5_counterexample :
    getCol c5nodes "reported_risk" = some ["", ""] ∧
    main c5nodes c5edges 10 = MainResult.completed 10 :=
  ⟨by decide, by decide⟩

/-- C5 (amended): a missing target column aborts the run before any
training step — main crashes on the KeyError raised while building y, so
train_model is never entered; when the target column is present, even if
every cell is empty, a run whose load succeeded goes on to complete all
its training steps. -/
theorem claim_C5 :
    (∀ nodes edges ep n1 e1 d,
        load_data nodes edges = Except.ok (n1, e1, d) →
        "reported_risk" ∉ nodes.cols →
        main nodes edges ep = MainResult.crashed (PyError.keyError "reported_risk"))
    ∧ ∀ nodes edges ep n1 e1 d,
        load_data nodes edges = Except.ok (n1, e1, d) →
        "reported_risk" ∈ nodes.cols →
        main nodes edges ep = MainResult.completed ep := by
  constructor
  · intro nodes edges ep n1 e1 d h hmiss
    obtain ⟨hu, hs, ht, hn, he, -⟩ := load_data_ok h
    subst hn he
    obtain ⟨n3, e3, encs, henc, hcols⟩ := @encode_data_ok (normNodes nodes)
      (filterValid (colVals (normNodes nodes) "user_id") (normEdges edges))
      hu hs ht (filterValid_colVals_src _ _) (filterValid_colVals_tgt _ _)
    have hg : getCol n3 "reported_risk" = none := by
      have : "reported_risk" ∉ n3.cols := by
        rw [hcols]
        simp only [List.mem_append, cols_normNodes]
        rintro (hc | hc)
        · exact hmiss hc
        · simp at hc
      simp [getCol, this]
    simp only [main, h]
    simp only [mainAfterLoad, preprocess, henc, hg]
  · intro nodes edges ep n1 e1 d h hmem
    obtain ⟨hu, hs, ht, hn, he, -⟩ := load_data_ok h
    subst hn he
    obtain ⟨n3, e3, encs, henc, hcols⟩ := @encode_data_ok (normNodes nodes)
      (filterValid (colVals (normNodes nodes) "user_id") (normEdges edges))
      hu hs ht (filterValid_colVals_src _ _) (filterValid_colVals_tgt _ _)
    have hg : getCol n3 "reported_risk" = some (colVals n3 "reported_risk") := by
      have : "reported_risk" ∈ n3.cols := by
        rw [hcols]
        exact List.mem_append_left _ hmem
      simp [getCol, this]
    simp only [main, h]
    simp only [mainAfterLoad, preprocess, henc, hg, train_model, Option.isNone_some,
      Bool.false_eq_true, if_false]

/-- Witness for the amended C5: a missing column crashes before training, a
present (though empty) column completes all steps. -/
theorem claim_C5_witness :
    load_data c5nodesMissing c5edges =
      Except.ok (c5nodesMissing, ⟨["source_id", "target_id"], []⟩, 1) ∧
    "reported_risk" ∉ c5nodesMissing.cols ∧
    main c5nodesMissing c5edges 3 = MainResult.crashed (PyError.keyError "reported_risk") ∧
    load_data c5nodes c5edges = Except.ok (c5nodes, c5edges, 0) ∧
    "reported_risk" ∈ c5nodes.cols ∧
    main c5nodes c5edges 3 = MainResult.completed 3 :=
  ⟨rfl, by decide,
    claim_C5.1 c5nodesMissing c5edges 3 c5nodesMissing ⟨["source_id", "target_id"], []⟩ 1
      rfl (by decide),
    rfl, by decide,
    claim_C5.2 c5nodes c5edges 3 c5nodes c5edges 0 rfl (by decide)⟩

/-! ### C6: the try/except around encode_data -/

/-- C6: a ValueError raised inside encode_data is caught by the
surrounding try/except of main (modelled by mainAfterLoad, the body of
main that runs on the tables load_data returned): the message is reported
and the run halts gracefully, with no retry, no tensor construction and no
training — those all sit strictly after the match arm that returns here. -/
theorem claim_C6 (nodes1 edges1 : DataFrame) (ep : Nat) (m : String)
    (h : encode_data (preprocess nodes1 edges1).1 (preprocess nodes1 edges1).2 =
      Except.error (PyError.valueError m)) :
    mainAfterLoad nodes1 edges1 ep = MainResult.encodingErrorCaught m := by
  simp only [preprocess] at h
  simp only [mainAfterLoad, preprocess, h]

/-- Witness for C6: an edge endpoint never seen by the fitted index makes
encode_data fail, and main reports the caught error. -/
theorem claim_C6_witness :
    encode_data (preprocess c6nodes c6edges).1 (preprocess c6nodes c6edges).2 =
      Except.error (PyError.valueError "y contains previously unseen labels") ∧
    mainAfterLoad c6nodes c6edges 7 =
      MainResult.encodingErrorCaught "y contains previously unseen labels" :=
  ⟨rfl, claim_C6 c6nodes c6edges 7 "y contains previously unseen labels" rfl⟩

/-! ### C3: the row-order invariant between edge_index and the feature matrix -/

/-- C3 fails on the code: with node rows in order B, A and the self-edge
(B, B), the pipeline completes and encodes the edge endpoint B as integer
1 (its rank among the sorted identifiers), yet row 1 of the node table --
and therefore row 1 of the feature matrix, which keeps the original row
order -- belongs to node A, while node B sits at row 0.  The integer in
edge_index therefore does not refer to the node whose features are at that
row. -/
theorem claim_C3 :
    load_data c3nodes c3edges = Except.ok (c3nodes, c3edges, 0) ∧
    encode_data c3nodes c3edges =
      Except.ok (c3nodesEnc, c3edgesEnc, [("reported_risk", ["5", "7"])]) ∧
    colVals c3edgesEnc "source_idx" = ["1"] ∧
    cellv (c3nodesEnc.rows.getD 1 []) (colPos c3nodesEnc "user_id") = "A" ∧
    cellv (c3nodesEnc.rows.getD 0 []) (colPos c3nodesEnc "user_id") = "B" ∧
    (dropCols c3nodesEnc ["user_id", "user_idx"]).rows = [["0"], ["1"]] ∧
    main c3nodes c3edges 1 = MainResult.completed 1 :=
  ⟨rfl, rfl, by decide, by decide, by decide, by decide, by decide⟩

/-! ### C7: column-local categorical encoders -/

theorem cellv_map_range {g : Nat → String} {n i : Nat} (h : i < n) :
    cellv ((List.range n).map g) i = g i := by
  unfold cellv
  rw [List.getD_eq_getElem?_getD, List.getElem?_map, List.getElem?_range h]
  rfl

/-- C7: the per-column encoding loop is column-local — each non-excluded
column of the encoded table is exactly the fit_transform of that column
taken alone; within one column the code is injective on values (equal
values share an integer, distinct values get distinct integers); the
region scenario encodes to 0, 1, 0; and the same string in two different
columns can receive two different integers. -/
theorem claim_C7 :
    (∀ (df : DataFrame) (ex : List String) (i : Nat),
        i < df.cols.length → df.cols.getD i "" ∉ ex →
        colValsAt (encodeAllCols df ex) i = (fit_transform (colValsAt df i)).map Nat.repr)
    ∧ (∀ (xs : List String), ∀ x ∈ xs, ∀ y ∈ xs,
        (List.indexOf x (classesOf xs) = List.indexOf y (classesOf xs) ↔ x = y))
    ∧ fit_transform ["east", "west", "east"] = [0, 1, 0]
    ∧ List.indexOf "b" (classesOf ["a", "b"]) = 1
    ∧ List.indexOf "b" (classesOf ["b", "z"]) = 0 := by
  refine ⟨?_, ?_, by decide, by decide, by decide⟩
  · intro df ex i h hex
    unfold colValsAt encodeAllCols fit_transform
    simp only [List.map_map]
    congr 1
    funext r
    simp only [Function.comp]
    rw [cellv_map_range h, encodedCell, if_neg hex]
    rfl
  · intro xs x hx y hy
    exact List.indexOf_inj (mem_classesOf.mpr hx) (mem_classesOf.mpr hy)

/-- Witness for C7 on the region scenario. -/
theorem claim_C7_witness :
    (0 < regionDf.cols.length ∧ regionDf.cols.getD 0 "" ∉ ([] : List String)) ∧
    colValsAt (encodeAllCols regionDf []) 0 =
      (fit_transform (colValsAt regionDf 0)).map Nat.repr ∧
    ("east" ∈ regionCol ∧ "west" ∈ regionCol) ∧
    (List.indexOf "east" (classesOf regionCol) = List.indexOf "west" (classesOf regionCol) ↔
      ("east" : String) = "west") :=
  ⟨⟨by decide, by decide⟩, claim_C7.1 regionDf [] 0 (by decide) (by decide),
    ⟨by decide, by decide⟩, claim_C7.2.1 regionCol "east" (by decide) "west" (by decide)⟩

/-! ### C8: identifier normalization makes whitespace-only differences vanish -/

theorem frame_ext {a b : DataFrame} (h1 : a.cols = b.cols) (h2 : a.rows = b.rows) : a = b := by
  cases a
  cases b
  simp_all

theorem length_mapAt (f : String → String) (n : Nat) (r : List String) :
    (mapAt f n r).length = r.length := by
  induction r generalizing n with
  | nil => cases n <;> rfl
  | cons v vs ih =>
    cases n with
    | zero => rfl
    | succ m => simp [mapAt, ih]

theorem cellv_eq_getElem {l : List String} {n : Nat} (h : n < l.length) :
    cellv l n = l[n] := by
  unfold cellv
  rw [List.getD_eq_getElem?_getD, List.getElem?_eq_getElem h]
  rfl

theorem cellv_mapAt (f : String → String) (n : Nat) (r : List String) (i : Nat) :
    cellv (mapAt f n r) i = if i = n ∧ i < r.length then f (cellv r i) else cellv r i := by
  induction r generalizing n i with
  | nil => simp [mapAt, cellv]
  | cons v vs ih =>
    cases n with
    | zero =>
      cases i with
      | zero => simp [mapAt, cellv]
      | succ j => simp [mapAt, cellv]
    | succ m =>
      cases i with
      | zero => simp [mapAt, cellv]
      | succ j =>
        simp only [mapAt, cellv, List.getD_cons_succ, List.length_cons,
          Nat.succ_lt_succ_iff, Nat.succ.injEq] at ih ⊢
        exact ih m j

theorem cellv_mapAt_eq {f : String → String} {n : Nat} {r : List String} (h : n < r.length) :
    cellv (mapAt f n r) n = f (cellv r n) := by
  rw [cellv_mapAt]
  exact if_pos ⟨rfl, h⟩

theorem cellv_mapAt_ne {f : String → String} {n i : Nat} (r : List String) (h : i ≠ n) :
    cellv (mapAt f n r) i = cellv r i := by
  rw [cellv_mapAt]
  exact if_neg (by simp [h])

theorem TrimEqRow_one {p : Nat} {r s : List String} (h : TrimEqRow [p] r s) :
    mapAt pyStrip p r = mapAt pyStrip p s := by
  obtain ⟨hlen, hcell⟩ := h
  apply List.ext_getElem (by simp [length_mapAt, hlen])
  intro n h1 h2
  have hn : n < r.length := by simpa [length_mapAt] using h1
  have hn2 : n < s.length := hlen ▸ hn
  obtain ⟨hid, hnon⟩ := hcell n hn
  rw [← cellv_eq_getElem h1, ← cellv_eq_getElem h2]
  by_cases hp : n = p
  · subst hp
    rw [cellv_mapAt_eq hn, cellv_mapAt_eq hn2]
    exact hid (by simp)
  · rw [cellv_mapAt_ne r hp, cellv_mapAt_ne s hp]
    exact hnon (by simp [hp])

theorem TrimEqRow_two {sp tp : Nat} {r s : List String} (h : TrimEqRow [sp, tp] r s) :
    mapAt pyStrip tp (mapAt pyStrip sp r) = mapAt pyStrip tp (mapAt pyStrip sp s) := by
  obtain ⟨hlen, hcell⟩ := h
  apply List.ext_getElem (by simp [length_mapAt, hlen])
  intro n h1 h2
  have hn : n < r.length := by simpa [length_mapAt] using h1
  have hn2 : n < s.length := hlen ▸ hn
  obtain ⟨hid, hnon⟩ := hcell n hn
  rw [← cellv_eq_getElem h1, ← cellv_eq_getElem h2]
  by_cases htp : n = tp
  · subst htp
    rw [cellv_mapAt_eq (by rw [length_mapAt]; exact hn),
      cellv_mapAt_eq (by rw [length_mapAt]; exact hn2)]
    by_cases hsp : n = sp
    · subst hsp
      rw [cellv_mapAt_eq hn, cellv_mapAt_eq hn2]
      exact congrArg pyStrip (hid (by simp))
    · rw [cellv_mapAt_ne r hsp, cellv_mapAt_ne s hsp]
      exact hid (by simp)
  · rw [cellv_mapAt_ne (mapAt pyStrip sp r) htp, cellv_mapAt_ne (mapAt pyStrip sp s) htp]
    by_cases hsp : n = sp
    · subst hsp
      rw [cellv_mapAt_eq hn, cellv_mapAt_eq hn2]
      exact hid (by simp)
    · rw [cellv_mapAt_ne r hsp, cellv_mapAt_ne s hsp]
      exact hnon (by simp [hsp, htp])

theorem map_congr_zip {α β : Type} {f g : α → β} :
    ∀ {l1 l2 : List α}, l1.length = l2.length →
      (∀ p ∈ l1.zip l2, f p.1 = g p.2) → l1.map f = l2.map g := by
  intro l1
  induction l1 with
  | nil =>
    intro l2 hlen _
    cases l2 with
    | nil => rfl
    | cons b m => simp at hlen
  | cons a l ih =>
    intro l2 hlen hp
    cases l2 with
    | nil => simp at hlen
    | cons b m =>
      simp only [List.map_cons]
      rw [hp (a, b) (by simp [List.zip_cons_cons]),
        ih (by simpa using hlen) (fun q hq => hp q (by simp [List.zip_cons_cons, hq]))]

theorem normNodes_congr {nodes nodes2 : DataFrame}
    (h : TrimEqFrame ["user_id"] nodes nodes2) : normNodes nodes = normNodes nodes2 := by
  obtain ⟨hcols, hlen, hrows⟩ := h
  have hpos : colPos nodes2 "user_id" = colPos nodes "user_id" := by
    rw [colPos, colPos, hcols]
  apply frame_ext
  · exact hcols
  · show nodes.rows.map (mapAt pyStrip (colPos nodes "user_id")) =
      nodes2.rows.map (mapAt pyStrip (colPos nodes2 "user_id"))
    rw [hpos]
    exact map_congr_zip hlen (fun p hp => TrimEqRow_one (hrows p hp))

theorem normEdges_congr {edges edges2 : DataFrame}
    (h : TrimEqFrame ["source_id", "target_id"] edges edges2) :
    normEdges edges = normEdges edges2 := by
  obtain ⟨hcols, hlen, hrows⟩ := h
  have hsp : colPos edges2 "source_id" = colPos edges "source_id" := by
    rw [colPos, colPos, hcols]
  have htp : colPos edges2 "target_id" = colPos edges "target_id" := by
    rw [colPos, colPos, hcols]
  apply frame_ext
  · exact hcols
  · show (edges.rows.map (mapAt pyStrip (colPos edges "source_id"))).map
        (mapAt pyStrip (colPos edges "target_id")) =
      (edges2.rows.map (mapAt pyStrip (colPos edges2 "source_id"))).map
        (mapAt pyStrip (colPos edges2 "target_id"))
    rw [hsp, htp]
    simp only [List.map_map, Function.comp]
    exact map_congr_zip hlen (fun p hp => TrimEqRow_two (hrows p hp))

/-- C8: identifiers that differ only by leading/trailing whitespace are
indistinguishable to the pipeline.  If two node tables and two edge tables
agree except for surrounding whitespace in the identifier cells, load_data
returns identical results on them — the stripped values are what edge
validation compares and what the identifier index is fitted on and applied
to — and the whole of main behaves identically. -/
theorem claim_C8 (nodes nodes2 edges edges2 : DataFrame) (ep : Nat)
    (hn : TrimEqFrame ["user_id"] nodes nodes2)
    (he : TrimEqFrame ["source_id", "target_id"] edges edges2) :
    load_data nodes edges = load_data nodes2 edges2 ∧
    main nodes edges ep = main nodes2 edges2 ep := by
  have h1 : normNodes nodes = normNodes nodes2 := normNodes_congr hn
  have h2 : normEdges edges = normEdges edges2 := normEdges_congr he
  have hload : load_data nodes edges = load_data nodes2 edges2 := by
    unfold load_data
    rw [hn.1, he.1, h1, h2]
  exact ⟨hload, by simp only [main, hload]⟩

/-- Witness for C8: the same two-node graph written with and without
surrounding whitespace loads and runs identically. -/
theorem claim_C8_witness :
    (TrimEqFrame ["user_id"] c8nodesA c8nodesB ∧
      TrimEqFrame ["source_id", "target_id"] c8edgesA c8edgesB) ∧
    load_data c8nodesA c8edgesA = load_data c8nodesB c8edgesB ∧
    main c8nodesA c8edgesA 2 = main c8nodesB c8edgesB 2 :=
  ⟨⟨by decide, by decide⟩,
    claim_C8 c8nodesA c8nodesB c8edgesA c8edgesB 2 (by decide) (by decide)⟩

end GNNFraud
